import Mathlib

/-!
Shallow embedding of the `garminconnect` client
(`garminconnect/__init__.py`) and proofs about its behaviour.

The HTTP layer is modelled by an oracle: each network exchange the client
performs is represented by an `HttpOutcome` (either a transport-level
failure that produces no response object, or a `Response` with a status
code, scraped text, final url and the cookies the exchange adds to the
shared cookie jar).  The response text is represented by the results of
the only three extractions the client ever performs on it: the
`__get_json` regex scrape of `KEY = {...};` blobs, the `_csrf` input-field
regex and the `?ticket=` regex.  Decoded JSON objects are association
lists of the string fields the client reads.
-/

namespace GarminVerify

/-- Python exception values the client can raise.  The first three are the
domain errors defined at the bottom of the module
(`GarminConnectTooManyRequestsError`, `GarminConnectAuthenticationError`,
`GarminConnectConnectionError`); the remaining constructors are builtin
Python exceptions that can escape from the code as written. -/
inductive PyExc where
  | tooManyRequests (msg : String)
  | authenticationError (msg : String)
  | connectionError (msg : String)
  | unboundLocalError (msg : String)
  | typeError (msg : String)
  | keyError (key : String)
  | indexError (msg : String)
  deriving DecidableEq

/-- A decoded JSON object, restricted to the string-valued fields the
client reads (`displayName`, `measurementSystem`, `fullName`). -/
abbrev JsonObj := List (String × String)

/-- Python dict subscript / lookup: first binding of the key, if any. -/
def dictGet {α : Type} (k : String) : List (String × α) → Option α
  | [] => none
  | (k2, v) :: rest => if k = k2 then some v else dictGet k rest

/-- Python dict assignment `d[k] = v`: overwrite an existing binding in
place, else append. -/
def dictSet {α : Type} (d : List (String × α)) (k : String) (v : α) :
    List (String × α) :=
  if (d.map Prod.fst).contains k then
    d.map (fun kv => if kv.1 = k then (k, v) else kv)
  else d ++ [(k, v)]

/-- `RequestsCookieJar.update` / `dict.update`: fold `dictSet` over the
new bindings. -/
def jarUpdate (jar new : List (String × String)) : List (String × String) :=
  new.foldl (fun j kv => dictSet j kv.1 kv.2) jar

/-- The response text as the client observes it: results of the
`__get_json` scrape per key, of the `_csrf` field regex, and of the
`?ticket=` regex. -/
structure Html where
  embeddedJson : String → Option JsonObj
  csrf : Option String
  ticket : Option String

/-- An HTTP response: status code, scraped text, final url (used as the
`Referer` of the follow-up POST) and the cookies the exchange adds to the
shared cookie jar. -/
structure Response where
  status_code : Nat
  text : Html
  url : String
  set_cookies : List (String × String)

/-- Outcome of one network exchange: either the transport raised before a
response object existed, or a response was produced. -/
inductive HttpOutcome where
  | networkError (msg : String)
  | response (r : Response)

/-- Requests `Response.raise_for_status`: raises `HTTPError` exactly for
status codes in `[400, 600)`. -/
def raise_for_status (n : Nat) : Bool :=
  decide (400 ≤ n) && decide (n < 600)

/-- Cookie-jar contents after one exchange: a transport failure adds
nothing, a response merges its cookies into the jar. -/
def jarAfter (jar : List (String × String)) : HttpOutcome → List (String × String)
  | .networkError _ => jar
  | .response r => jarUpdate jar r.set_cookies

namespace ApiClient

/-- `ApiClient.url`: `https://{baseurl}` with `/{addurl}` appended when
`addurl` is not `None`. -/
def url (baseurl : String) (addurl : Option String) : String :=
  match addurl with
  | none => "https://" ++ baseurl
  | some a => "https://" ++ baseurl ++ "/" ++ a

/-- `ApiClient.get`.  On a transport failure the `except` block evaluates
`response.content` while the local `response` was never assigned, so an
`UnboundLocalError` escapes.  When a response exists, `raise_for_status`
raises for status in `[400, 600)` and the `except` block maps 429, 401,
403 and every other error status to the domain errors; otherwise the
response is returned unchanged. -/
def get (baseurl : String) (addurl : Option String) (outcome : HttpOutcome) :
    Except PyExc Response :=
  match outcome with
  | .networkError _ =>
      .error (.unboundLocalError "local variable response referenced before assignment")
  | .response r =>
      if raise_for_status r.status_code then
        if r.status_code = 429 then .error (.tooManyRequests "Too many requests")
        else if r.status_code = 401 then .error (.authenticationError "Authentication error")
        else if r.status_code = 403 then
          .error (.connectionError ("Forbidden url: " ++ url baseurl addurl))
        else .error (.connectionError ("HTTPError " ++ toString r.status_code))
      else .ok r

/-- `ApiClient.post`: the error handling is duplicated verbatim from
`ApiClient.get` in the source. -/
def post (baseurl : String) (addurl : Option String) (outcome : HttpOutcome) :
    Except PyExc Response :=
  match outcome with
  | .networkError _ =>
      .error (.unboundLocalError "local variable response referenced before assignment")
  | .response r =>
      if raise_for_status r.status_code then
        if r.status_code = 429 then .error (.tooManyRequests "Too many requests")
        else if r.status_code = 401 then .error (.authenticationError "Authentication error")
        else if r.status_code = 403 then
          .error (.connectionError ("Forbidden url: " ++ url baseurl addurl))
        else .error (.connectionError ("HTTPError " ++ toString r.status_code))
      else .ok r

end ApiClient

/-- A value stored in the `session_data` dict: the display name is a
string, the two cookie fields are dicts mapping cookie name to value. -/
inductive SessionValue where
  | str (s : String)
  | cookies (c : List (String × String))
  deriving DecidableEq

/-- The `session_data` dict handed to the constructor and rebuilt by
`authenticate`: an association list, as Python dicts preserve insertion
order. -/
abbrev SessionData := List (String × SessionValue)

/-- Mutable state of a `Garmin` instance.  Both `ApiClient`s are built on
the one `cloudscraper` session created in `__init__`, so there is a single
shared cookie jar. -/
structure GarminState where
  username : String
  password : String
  is_cn : Bool
  session_data : Option SessionData
  display_name : Option String
  full_name : Option String
  unit_system : Option String
  jar : List (String × String)
  deriving DecidableEq

/-- One network request issued during login, with the data that varies
per call; `postSsoSignin` is the credential POST. -/
inductive Step where
  | getSsoLogin
  | getSsoSignin
  | postSsoSignin (username password csrf : String)
  | getModernRoot (ticket : String)
  deriving DecidableEq

/-- Oracle for the network exchanges the login flow can perform: each
request the source issues targets a distinct (method, client, path), so
the world is keyed by step. -/
structure World where
  ssoLoginResume : HttpOutcome
  ssoSigninGet : HttpOutcome
  ssoSigninPost : HttpOutcome
  modernTicketGet : HttpOutcome

/-- Base url of the SSO `ApiClient` (`garmin_connect_sso_url`). -/
def ssoBase (is_cn : Bool) : String :=
  if is_cn then "sso.garmin.cn/sso" else "sso.garmin.com/sso"

/-- Base url of the modern `ApiClient` (`garmin_connect_modern_url`). -/
def modernBase (is_cn : Bool) : String :=
  if is_cn then "connect.garmin.cn/modern" else "connect.garmin.com/modern"

/-- `requests.utils.cookiejar_from_dict` applied to a `session_data`
value: a dict of cookies is taken as-is; on a string it iterates the
characters and subscripts the string with each character, which raises
`TypeError`. -/
def cookiejar_from_dict : SessionValue → Except PyExc (List (String × String))
  | .cookies c => .ok c
  | .str s =>
      if s.length = 0 then .ok []
      else .error (.typeError "string indices must be integers")

/-- Python `==` between the freshly scraped display name (a string) and a
value read from the `session_data` dict. -/
def eqSessionValue (s : String) : SessionValue → Bool
  | .str t => s == t
  | .cookies _ => false

/-- `Garmin.authenticate`: clear the shared jar, GET the sign-in page,
extract `_csrf` (absent: log and `return False`), POST the credentials,
extract the ticket (absent: `return False`), GET the modern root with the
ticket, scrape the two embedded JSON blobs (absent: subscripting `None`
raises `TypeError`), record display name / unit system / full name, and
snapshot the shared jar twice into a fresh three-field `session_data`
dict.  Returns the new state, the requests issued, and the Python result
(`Bool` value or exception). -/
def authenticate (w : World) (s0 : GarminState) :
    GarminState × List Step × Except PyExc Bool :=
  let s := { s0 with jar := [] }
  let s := { s with jar := jarAfter s.jar w.ssoSigninGet }
  match ApiClient.get (ssoBase s.is_cn) (some "signin") w.ssoSigninGet with
  | .error e => (s, [.getSsoSignin], .error e)
  | .ok resp =>
    match resp.text.csrf with
    | none => (s, [.getSsoSignin], .ok false)
    | some csrf =>
      let s := { s with jar := jarAfter s.jar w.ssoSigninPost }
      match ApiClient.post (ssoBase s.is_cn) (some "signin") w.ssoSigninPost with
      | .error e =>
          (s, [.getSsoSignin, .postSsoSignin s.username s.password csrf], .error e)
      | .ok resp2 =>
        match resp2.text.ticket with
        | none =>
            (s, [.getSsoSignin, .postSsoSignin s.username s.password csrf], .ok false)
        | some ticket =>
          let s := { s with jar := jarAfter s.jar w.modernTicketGet }
          let tr := [Step.getSsoSignin,
                     Step.postSsoSignin s.username s.password csrf,
                     Step.getModernRoot ticket]
          match ApiClient.get (modernBase s.is_cn) (some "") w.modernTicketGet with
          | .error e => (s, tr, .error e)
          | .ok resp3 =>
            match resp3.text.embeddedJson "VIEWER_USERPREFERENCES" with
            | none => (s, tr, .error (.typeError "NoneType object is not subscriptable"))
            | some up =>
              match dictGet "displayName" up with
              | none => (s, tr, .error (.keyError "displayName"))
              | some dn =>
                let s := { s with display_name := some dn }
                match dictGet "measurementSystem" up with
                | none => (s, tr, .error (.keyError "measurementSystem"))
                | some ms =>
                  let s := { s with unit_system := some ms }
                  match resp3.text.embeddedJson "VIEWER_SOCIAL_PROFILE" with
                  | none => (s, tr, .error (.typeError "NoneType object is not subscriptable"))
                  | some sp =>
                    match dictGet "fullName" sp with
                    | none => (s, tr, .error (.keyError "fullName"))
                    | some fn =>
                      let s := { s with full_name := some fn }
                      let s := { s with session_data := (
                        some [("display_name", SessionValue.str dn),
                              ("session_cookies", SessionValue.cookies s.jar),
                              ("login_cookies", SessionValue.cookies s.jar)]) }
                      (s, tr, .ok true)

/-- Prefix a request trace onto the result of a nested call. -/
def withTrace (pre : List Step)
    (r : GarminState × List Step × Except PyExc Bool) :
    GarminState × List Step × Except PyExc Bool :=
  (r.1, pre ++ r.2.1, r.2.2)

/-- `Garmin.login_session`: read the saved display name and both cookie
dicts out of `session_data`, inject the cookies into the shared jar, GET
the SSO `login` path, and validate: a non-200 status or a missing
`VIEWER_USERPREFERENCES` blob falls back to `authenticate`; the
`VIEWER_SOCIAL_PROFILE` blob is subscripted without a `None` check, so
its absence raises `TypeError`; a display-name mismatch falls back to
`authenticate`; a match returns `True`. -/
def login_session (w : World) (s0 : GarminState) :
    GarminState × List Step × Except PyExc Bool :=
  match s0.session_data with
  | none => (s0, [], .error (.typeError "NoneType object is not subscriptable"))
  | some sd =>
    match dictGet "display_name" sd with
    | none => (s0, [], .error (.keyError "display_name"))
    | some session_display_name =>
      match dictGet "session_cookies" sd with
      | none => (s0, [], .error (.keyError "session_cookies"))
      | some session_cookies_v =>
        match cookiejar_from_dict session_cookies_v with
        | .error e => (s0, [], .error e)
        | .ok session_cookies =>
          let s := { s0 with jar := jarUpdate s0.jar session_cookies }
          match dictGet "login_cookies" sd with
          | none => (s, [], .error (.keyError "login_cookies"))
          | some login_cookies_v =>
            match cookiejar_from_dict login_cookies_v with
            | .error e => (s, [], .error e)
            | .ok login_cookies =>
              let s := { s with jar := jarUpdate s.jar login_cookies }
              let s := { s with jar := jarAfter s.jar w.ssoLoginResume }
              match ApiClient.get (ssoBase s.is_cn) (some "login") w.ssoLoginResume with
              | .error e => (s, [.getSsoLogin], .error e)
              | .ok resp =>
                if resp.status_code ≠ 200 then
                  withTrace [.getSsoLogin] (authenticate w s)
                else
                  match resp.text.embeddedJson "VIEWER_USERPREFERENCES" with
                  | none => withTrace [.getSsoLogin] (authenticate w s)
                  | some up =>
                    match dictGet "displayName" up with
                    | none => (s, [.getSsoLogin], .error (.keyError "displayName"))
                    | some dn =>
                      let s := { s with display_name := some dn }
                      match dictGet "measurementSystem" up with
                      | none => (s, [.getSsoLogin], .error (.keyError "measurementSystem"))
                      | some ms =>
                        let s := { s with unit_system := some ms }
                        match resp.text.embeddedJson "VIEWER_SOCIAL_PROFILE" with
                        | none =>
                            (s, [.getSsoLogin],
                             .error (.typeError "NoneType object is not subscriptable"))
                        | some sp =>
                          match dictGet "fullName" sp with
                          | none => (s, [.getSsoLogin], .error (.keyError "fullName"))
                          | some fn =>
                            let s := { s with full_name := some fn }
                            if eqSessionValue dn session_display_name then
                              (s, [.getSsoLogin], .ok true)
                            else
                              withTrace [.getSsoLogin] (authenticate w s)

/-- `Garmin.login`: dispatch on `session_data is None`. -/
def login (w : World) (s : GarminState) :
    GarminState × List Step × Except PyExc Bool :=
  match s.session_data with
  | none => authenticate w s
  | some _ => login_session w s

/-- One JSON value, for fields whose type the client inspects
dynamically (the `privacyProtected` flag). -/
inductive JVal where
  | jnull
  | jbool (b : Bool)
  | jstr (s : String)
  | jnum (n : Int)
  deriving DecidableEq

/-- A decoded daily-summary response: the `privacyProtected` field the
client subscripts, plus the remaining fields of the JSON object. -/
structure SummaryResponse where
  privacyProtected : JVal
  rest : List (String × JVal)
  deriving DecidableEq

/-- `Garmin.get_user_summary`, given the decoded JSON of the
daily-summary endpoint: raise `GarminConnectAuthenticationError` when
`response["privacyProtected"] is True`, else return the response. -/
def get_user_summary (response : SummaryResponse) : Except PyExc SummaryResponse :=
  if response.privacyProtected = JVal.jbool true then
    .error (.authenticationError "Authentication error")
  else .ok response

/-- `Garmin.get_stats`: compat alias that just calls
`get_user_summary`. -/
def get_stats (response : SummaryResponse) : Except PyExc SummaryResponse :=
  get_user_summary response

/-- Query parameters built by `Garmin.get_body_composition`: when
`enddate` is `None` it is replaced by `startdate`. -/
def get_body_composition_params (startdate : String) (enddate : Option String) :
    List (String × String) :=
  let e := match enddate with
    | none => startdate
    | some e2 => e2
  [("startDate", startdate), ("endDate", e)]

/-- Python list subscript with an `Int` index: negative indices count
from the end, out-of-range indices raise `IndexError`. -/
def pyGetItem {α : Type} (l : List α) (i : Int) : Except PyExc α :=
  let j := if i < 0 then i + l.length else i
  if h : 0 ≤ j ∧ j.toNat < l.length then .ok (l.get ⟨j.toNat, h.2⟩)
  else .error (.indexError "list index out of range")

/-- `Garmin.get_last_activity`, given the decoded list returned by
`get_activities(0, 1)`: `activities[-1] if activities else None`. -/
def get_last_activity {α : Type} (activities : List α) : Except PyExc (Option α) :=
  if activities.isEmpty then .ok none
  else
    match pyGetItem activities (-1) with
    | .error e => .error e
    | .ok a => .ok (some a)

/-- One entry of the device list returned by `get_devices`, restricted
to the `deviceId` field the client subscripts. -/
structure Device where
  deviceId : String
  deriving DecidableEq

/-- `Garmin.get_device_alarms`, given the decoded device list and an
oracle mapping a device id to the `alarms` field of
`get_device_settings(id)`: the for-loop accumulates `alarms +=
settings["alarms"]`.  The second component records the device ids whose
settings were fetched, in request order. -/
def get_device_alarms {α : Type} (devices : List Device)
    (settings : String → List α) : List α × List String :=
  devices.foldl
    (fun acc device => (acc.1 ++ settings device.deviceId, acc.2 ++ [device.deviceId]))
    ([], [])

/-- The `while True` pagination loop of `get_activities_by_date`, given
an oracle mapping the `start` offset to the decoded page for the fixed
date range: a non-empty page is appended and the offset advances by
`limit`; an empty page breaks the loop.  The second component records
the `(start, limit)` query parameters of each request in order.  `fuel`
bounds the recursion; the source loops forever if no page is ever
empty. -/
def activitiesPages {α : Type} (server : Nat → List α) (limit : Nat) :
    Nat → Nat → List α × List (Nat × Nat)
  | _, 0 => ([], [])
  | start, fuel + 1 =>
    let act := server start
    if act.isEmpty then ([], [(start, limit)])
    else
      let rest := activitiesPages server limit (start + limit) fuel
      (act ++ rest.1, (start, limit) :: rest.2)

/-- `Garmin.get_activities_by_date`: the loop starts at offset 0 with
the fixed page size `limit = 20`. -/
def get_activities_by_date {α : Type} (server : Nat → List α) (fuel : Nat) :
    List α × List (Nat × Nat) :=
  activitiesPages server 20 0 fuel

/-- C1: status mapping of `ApiClient.get` and `ApiClient.post`.  The
429/401/403/other-error-status cases and the 2xx case behave as the claim
states, but a transport-level failure (no response object) raises
`UnboundLocalError` from the `except` block instead of
`GarminConnectConnectionError` carrying the cause. -/
theorem apiClient_error_mapping (baseurl : String) (addurl : Option String)
    (msg : String) (r : Response) :
    (ApiClient.get baseurl addurl (.networkError msg)
        = .error (.unboundLocalError "local variable response referenced before assignment")
      ∧ ApiClient.post baseurl addurl (.networkError msg)
        = .error (.unboundLocalError "local variable response referenced before assignment"))
    ∧ (r.status_code = 429 →
        ApiClient.get baseurl addurl (.response r) = .error (.tooManyRequests "Too many requests")
        ∧ ApiClient.post baseurl addurl (.response r) = .error (.tooManyRequests "Too many requests"))
    ∧ (r.status_code = 401 →
        ApiClient.get baseurl addurl (.response r) = .error (.authenticationError "Authentication error")
        ∧ ApiClient.post baseurl addurl (.response r) = .error (.authenticationError "Authentication error"))
    ∧ (r.status_code = 403 →
        ApiClient.get baseurl addurl (.response r)
          = .error (.connectionError ("Forbidden url: " ++ ApiClient.url baseurl addurl))
        ∧ ApiClient.post baseurl addurl (.response r)
          = .error (.connectionError ("Forbidden url: " ++ ApiClient.url baseurl addurl)))
    ∧ (400 ≤ r.status_code → r.status_code < 600 →
        r.status_code ≠ 429 → r.status_code ≠ 401 → r.status_code ≠ 403 →
        ApiClient.get baseurl addurl (.response r)
          = .error (.connectionError ("HTTPError " ++ toString r.status_code))
        ∧ ApiClient.post baseurl addurl (.response r)
          = .error (.connectionError ("HTTPError " ++ toString r.status_code)))
    ∧ (200 ≤ r.status_code → r.status_code < 300 →
        ApiClient.get baseurl addurl (.response r) = .ok r
        ∧ ApiClient.post baseurl addurl (.response r) = .ok r) := by
  refine ⟨⟨rfl, rfl⟩, ?_, ?_, ?_, ?_, ?_⟩
  · intro h
    constructor <;> simp [ApiClient.get, ApiClient.post, raise_for_status, h]
  · intro h
    constructor <;> simp [ApiClient.get, ApiClient.post, raise_for_status, h]
  · intro h
    constructor <;> simp [ApiClient.get, ApiClient.post, raise_for_status, h]
  · intro h1 h2 h3 h4 h5
    constructor <;>
      simp [ApiClient.get, ApiClient.post, raise_for_status, h1, h2, h3, h4, h5]
  · intro h1 h2
    have hge : ¬ (400 ≤ r.status_code) := by omega
    constructor <;> simp [ApiClient.get, ApiClient.post, raise_for_status, hge]

/-- Witness for C1: concrete evaluations at status 429, 403, 500, 204 and
at a transport failure. -/
theorem apiClient_error_mapping_witness :
    ApiClient.get "sso.garmin.com/sso" (some "signin")
        (.response ⟨429, ⟨fun _ => none, none, none⟩, "u", []⟩)
      = .error (.tooManyRequests "Too many requests")
    ∧ ApiClient.post "sso.garmin.com/sso" (some "signin")
        (.response ⟨403, ⟨fun _ => none, none, none⟩, "u", []⟩)
      = .error (.connectionError "Forbidden url: https://sso.garmin.com/sso/signin")
    ∧ ApiClient.get "sso.garmin.com/sso" (some "signin")
        (.response ⟨500, ⟨fun _ => none, none, none⟩, "u", []⟩)
      = .error (.connectionError "HTTPError 500")
    ∧ ApiClient.get "sso.garmin.com/sso" (some "signin")
        (.response ⟨204, ⟨fun _ => none, none, none⟩, "u", []⟩)
      = .ok ⟨204, ⟨fun _ => none, none, none⟩, "u", []⟩
    ∧ ApiClient.get "sso.garmin.com/sso" (some "signin") (.networkError "dns failure")
      = .error (.unboundLocalError "local variable response referenced before assignment") := by
  refine ⟨?_, ?_, ?_, ?_, ?_⟩
  · exact ((apiClient_error_mapping "sso.garmin.com/sso" (some "signin") "m"
      ⟨429, ⟨fun _ => none, none, none⟩, "u", []⟩).2.1 rfl).1
  · exact ((apiClient_error_mapping "sso.garmin.com/sso" (some "signin") "m"
      ⟨403, ⟨fun _ => none, none, none⟩, "u", []⟩).2.2.2.1 rfl).2
  · exact ((apiClient_error_mapping "sso.garmin.com/sso" (some "signin") "m"
      ⟨500, ⟨fun _ => none, none, none⟩, "u", []⟩).2.2.2.2.1
        (by decide) (by decide) (by decide) (by decide) (by decide)).1
  · exact ((apiClient_error_mapping "sso.garmin.com/sso" (some "signin") "m"
      ⟨204, ⟨fun _ => none, none, none⟩, "u", []⟩).2.2.2.2.2
        (by decide) (by decide)).1
  · exact (apiClient_error_mapping "sso.garmin.com/sso" (some "signin") "dns failure"
      ⟨204, ⟨fun _ => none, none, none⟩, "u", []⟩).1.1

/-- C10: calling `get_body_composition` with the end date omitted is
equivalent to calling it with the end date equal to the start date, and
the request carries `startDate` and `endDate` with the same value. -/
theorem get_body_composition_default_enddate (startdate : String) :
    get_body_composition_params startdate none
      = get_body_composition_params startdate (some startdate)
    ∧ get_body_composition_params startdate none
      = [("startDate", startdate), ("endDate", startdate)] :=
  ⟨rfl, rfl⟩

/-- C7: `get_user_summary` (and `get_stats`) raises
`GarminConnectAuthenticationError` exactly when the `privacyProtected`
flag of the decoded response is the boolean `true`; otherwise the decoded
JSON is returned unchanged. -/
theorem get_user_summary_privacy (response : SummaryResponse) :
    (response.privacyProtected = JVal.jbool true →
      get_user_summary response = .error (.authenticationError "Authentication error")
      ∧ get_stats response = .error (.authenticationError "Authentication error"))
    ∧ (response.privacyProtected ≠ JVal.jbool true →
      get_user_summary response = .ok response
      ∧ get_stats response = .ok response) := by
  constructor
  · intro h
    constructor <;> simp [get_user_summary, get_stats, h]
  · intro h
    constructor <;> simp [get_user_summary, get_stats, h]

/-- Witness for C7: a privacy-protected response raises, a clear one is
returned unchanged. -/
theorem get_user_summary_privacy_witness :
    get_user_summary ⟨JVal.jbool true, []⟩
      = .error (.authenticationError "Authentication error")
    ∧ get_user_summary ⟨JVal.jbool false, [("totalKilocalories", JVal.jnum 1800)]⟩
      = .ok ⟨JVal.jbool false, [("totalKilocalories", JVal.jnum 1800)]⟩ :=
  ⟨((get_user_summary_privacy ⟨JVal.jbool true, []⟩).1 rfl).1,
   ((get_user_summary_privacy
      ⟨JVal.jbool false, [("totalKilocalories", JVal.jnum 1800)]⟩).2 (by decide)).1⟩

/-- Unfolding of the `get_device_alarms` fold against an arbitrary
accumulator. -/
theorem get_device_alarms_fold {α : Type} (settings : String → List α) :
    ∀ (devices : List Device) (acc : List α × List String),
      devices.foldl
        (fun acc device =>
          (acc.1 ++ settings device.deviceId, acc.2 ++ [device.deviceId])) acc
      = (acc.1 ++ devices.flatMap (fun device => settings device.deviceId),
         acc.2 ++ devices.map Device.deviceId) := by
  intro devices
  induction devices with
  | nil => intro acc; simp
  | cons d ds ih =>
    intro acc
    simp only [List.foldl_cons, ih, List.flatMap_cons, List.map_cons]
    simp [List.append_assoc]

/-- C5: `get_device_alarms` fetches each listed device's settings in
device-list order and returns the concatenation of the per-device alarm
lists in that order; with two devices exposing one and two alarms it
returns the three alarms in device order. -/
theorem get_device_alarms_concat {α : Type} (devices : List Device)
    (settings : String → List α) :
    get_device_alarms devices settings
      = (devices.flatMap (fun device => settings device.deviceId),
         devices.map Device.deviceId)
    ∧ get_device_alarms [⟨"d1"⟩, ⟨"d2"⟩]
        (fun id => if id = "d1" then ["a1"] else ["a2", "a3"])
      = (["a1", "a2", "a3"], ["d1", "d2"]) := by
  constructor
  · unfold get_device_alarms
    rw [get_device_alarms_fold]
    simp
  · rfl

/-- Evaluation of Python `l[-1]` on a non-empty list: the last element. -/
theorem pyGetItem_last {α : Type} (a : α) (as : List α) :
    pyGetItem (a :: as) (-1) = .ok ((a :: as).getLast (List.cons_ne_nil a as)) := by
  have hj : (if (-1 : Int) < 0 then (-1 : Int) + ((a :: as).length : Int) else (-1 : Int))
      = ((as.length : Nat) : Int) := by
    rw [if_pos (by norm_num)]
    simp only [List.length_cons]
    push_cast
    ring
  simp only [pyGetItem, hj]
  rw [dif_pos ⟨by positivity, by simp⟩]
  congr 1
  rw [List.getLast_eq_getElem]
  simp [List.get_eq_getElem]

/-- C9: `get_last_activity` returns `None` on an empty activity list and
the last element otherwise, and never raises. -/
theorem get_last_activity_eq (α : Type) (activities : List α) :
    get_last_activity activities = .ok activities.getLast? := by
  cases activities with
  | nil => rfl
  | cons a as =>
    rw [List.getLast?_eq_getLast_of_ne_nil (List.cons_ne_nil a as)]
    simp only [get_last_activity]
    rw [if_neg (by simp), pyGetItem_last]

/-- Pagination loop of `get_activities_by_date`: if the page at offset
`start + 20 * m` is the first empty one, the loop returns the
concatenation of the `m` non-empty pages in request order and issues
`m + 1` requests at offsets advancing by 20, each with limit 20. -/
theorem activitiesPages_spec {α : Type} (server : Nat → List α) :
    ∀ (m start fuel : Nat), m < fuel →
      server (start + 20 * m) = [] →
      (∀ i, i < m → server (start + 20 * i) ≠ []) →
      activitiesPages server 20 start fuel
        = ((List.range m).flatMap (fun i => server (start + 20 * i)),
           (List.range (m + 1)).map (fun i => (start + 20 * i, 20))) := by
  intro m
  induction m with
  | zero =>
    intro start fuel hf hempty _
    match fuel, hf with
    | fuel + 1, _ =>
      have h0 : server start = [] := by simpa using hempty
      simp [activitiesPages, h0, List.range_succ]
  | succ m ih =>
    intro start fuel hf hempty hne
    match fuel, hf with
    | fuel + 1, hf =>
      have h0 : server start ≠ [] := by
        have := hne 0 (Nat.succ_pos m)
        simpa using this
      have h0b : ¬ ((server start).isEmpty = true) := by
        simpa using h0
      have hempty2 : server (start + 20 + 20 * m) = [] := by
        have heq : start + 20 + 20 * m = start + 20 * (m + 1) := by ring
        rw [heq]
        exact hempty
      have hne2 : ∀ i, i < m → server (start + 20 + 20 * i) ≠ [] := by
        intro i hi
        have heq : start + 20 + 20 * i = start + 20 * (i + 1) := by ring
        rw [heq]
        exact hne (i + 1) (by omega)
      have hrec := ih (start + 20) fuel (by omega) hempty2 hne2
      simp only [activitiesPages]
      rw [if_neg h0b, hrec]
      show (server start ++ (List.range m).flatMap (fun i => server (start + 20 + 20 * i)),
            (start, 20) :: List.map (fun i => (start + 20 + 20 * i, 20)) (List.range (m + 1)))
          = _
      rw [Prod.mk.injEq]
      refine ⟨?_, ?_⟩
      · rw [List.range_succ_eq_map, List.flatMap_cons]
        simp only [Nat.mul_zero, Nat.add_zero]
        congr 1
        simp only [List.flatMap_def, List.map_map]
        congr 1
        apply List.map_congr_left
        intro i _
        simp only [Function.comp_apply, Nat.succ_eq_add_one]
        congr 1
        ring
      · rw [List.range_succ_eq_map (m + 1)]
        simp only [List.map_cons, Nat.mul_zero, Nat.add_zero, List.map_map]
        congr 1
        apply List.map_congr_left
        intro i _
        simp only [Function.comp_apply, Nat.succ_eq_add_one]
        congr 1
        ring

/-- C4: `get_activities_by_date` issues fixed-size-20 page requests with
the start offset advancing by 20, stops at the first empty page, and
returns the concatenation of the non-empty pages in request order. -/
theorem get_activities_by_date_pagination {α : Type} (server : Nat → List α)
    (m fuel : Nat) (hf : m < fuel) (hempty : server (20 * m) = [])
    (hne : ∀ i, i < m → server (20 * i) ≠ []) :
    get_activities_by_date server fuel
      = ((List.range m).flatMap (fun i => server (20 * i)),
         (List.range (m + 1)).map (fun i => (20 * i, 20))) := by
  unfold get_activities_by_date
  rw [activitiesPages_spec server m 0 fuel hf (by simpa using hempty)
      (by intro i hi; simpa using hne i hi)]
  simp

/-- Mock server for the C4 witness: three pages of 20 activities each,
then empty pages. -/
def srv3 (start : Nat) : List Nat :=
  if start < 60 then (List.range 20).map (fun i => start + i) else []

/-- Witness for C4: three pages of 20 items followed by an empty page
yield exactly the 60 items in order via exactly 4 requests with offsets
0, 20, 40, 60 and limit 20. -/
theorem get_activities_by_date_pagination_witness :
    get_activities_by_date srv3 4
      = (List.range 60, [(0, 20), (20, 20), (40, 20), (60, 20)]) := by
  rw [get_activities_by_date_pagination srv3 3 4 (by decide) (by decide)
      (by decide)]
  decide

/-- Credential fields are untouched by `authenticate`: every state update
in its body goes through a record update that leaves `username`,
`password` and `is_cn` alone. -/
theorem authenticate_preserves (w : World) (s : GarminState) :
    (authenticate w s).1.username = s.username
    ∧ (authenticate w s).1.password = s.password
    ∧ (authenticate w s).1.is_cn = s.is_cn := by
  dsimp only [authenticate]
  repeat' split
  all_goals simp

/-- Credential fields are untouched by `login_session`, including on the
fallback paths into `authenticate`. -/
theorem login_session_preserves (w : World) (s : GarminState) :
    (login_session w s).1.username = s.username
    ∧ (login_session w s).1.password = s.password
    ∧ (login_session w s).1.is_cn = s.is_cn := by
  dsimp only [login_session]
  repeat' split
  all_goals simp [withTrace, authenticate_preserves]

/-- C8: `login`, `login_session` and `authenticate` never modify the
`username`, `password` and `is_cn` fields set at construction. -/
theorem credentials_immutable (w : World) (s : GarminState) :
    ((login w s).1.username = s.username
      ∧ (login w s).1.password = s.password
      ∧ (login w s).1.is_cn = s.is_cn)
    ∧ ((login_session w s).1.username = s.username
      ∧ (login_session w s).1.password = s.password
      ∧ (login_session w s).1.is_cn = s.is_cn)
    ∧ ((authenticate w s).1.username = s.username
      ∧ (authenticate w s).1.password = s.password
      ∧ (authenticate w s).1.is_cn = s.is_cn) := by
  refine ⟨?_, login_session_preserves w s, authenticate_preserves w s⟩
  unfold login
  split
  · exact authenticate_preserves w s
  · exact login_session_preserves w s

/-- A freshly constructed client with no saved session. -/
def s3 : GarminState :=
  { username := "user@example.com", password := "hunter2", is_cn := false,
    session_data := none, display_name := none, full_name := none,
    unit_system := none, jar := [] }

/-- A client constructed with prior session state for user `alice`. -/
def s2 : GarminState :=
  { username := "user@example.com", password := "hunter2", is_cn := false,
    session_data := some
      [("display_name", SessionValue.str "alice"),
       ("session_cookies", SessionValue.cookies [("SESSIONID", "sid-1")]),
       ("login_cookies", SessionValue.cookies [("CASTGC", "tgt-1")])],
    display_name := none, full_name := none, unit_system := none, jar := [] }

/-- Resume-path world for C2: the SSO login GET succeeds with HTTP 200
and a page carrying `VIEWER_USERPREFERENCES` but no
`VIEWER_SOCIAL_PROFILE` blob. -/
def w2 : World :=
  { ssoLoginResume := .response
      { status_code := 200
        text :=
          { embeddedJson := fun k =>
              if k = "VIEWER_USERPREFERENCES" then
                some [("displayName", "alice"), ("measurementSystem", "metric")]
              else none
            csrf := none
            ticket := none }
        url := "https://sso.garmin.com/sso/login"
        set_cookies := [] }
    ssoSigninGet := .networkError "unused"
    ssoSigninPost := .networkError "unused"
    modernTicketGet := .networkError "unused" }

/-- C2: evaluation at the failing input.  With a saved session and a
resume page that lacks the `VIEWER_SOCIAL_PROFILE` blob, `login()` does
not fall back to full authentication: subscripting the `None` returned by
the scrape raises `TypeError` to the caller, after the single resume GET
and with the display name already validated. -/
theorem login_session_missing_social_profile :
    (login w2 s2).2.2 = .error (.typeError "NoneType object is not subscriptable")
    ∧ (login w2 s2).2.1 = [Step.getSsoLogin]
    ∧ (login w2 s2).1.display_name = some "alice" := by
  refine ⟨?_, ?_, ?_⟩ <;> rfl

/-- Sign-in page response without a `_csrf` input field. -/
def signinPageNoCsrf : Response :=
  { status_code := 200
    text := { embeddedJson := fun _ => none, csrf := none, ticket := none }
    url := "https://sso.garmin.com/sso/signin"
    set_cookies := [] }

/-- Full-authentication world for the C3 counterexample: the sign-in GET
serves a page with no `_csrf` field. -/
def w3 : World :=
  { ssoLoginResume := .networkError "unused"
    ssoSigninGet := .response signinPageNoCsrf
    ssoSigninPost := .networkError "unused"
    modernTicketGet := .networkError "unused" }

/-- Counterexample for C3: when the sign-in page HTML has no `_csrf`
input field, `login()` does not raise an AuthenticationFailed-class
error — it returns `False` — and the only request issued is the sign-in
GET, so no credential POST happens. -/
theorem login_missing_csrf_returns_false :
    login w3 s3 = (s3, [Step.getSsoSignin], .ok false) := by
  rfl

/-- Sign-in page response carrying a `_csrf` field. -/
def signinPageWithCsrf : Response :=
  { status_code := 200
    text := { embeddedJson := fun _ => none, csrf := some "csrf-token-1", ticket := none }
    url := "https://sso.garmin.com/sso/signin"
    set_cookies := [] }

/-- Credential-POST response body with no `?ticket=` marker. -/
def postPageNoTicket : Response :=
  { status_code := 200
    text := { embeddedJson := fun _ => none, csrf := none, ticket := none }
    url := "https://sso.garmin.com/sso/signin"
    set_cookies := [] }

/-- Full-authentication world where the POST response lacks the ticket
marker. -/
def w3t : World :=
  { ssoLoginResume := .networkError "unused"
    ssoSigninGet := .response signinPageWithCsrf
    ssoSigninPost := .response postPageNoTicket
    modernTicketGet := .networkError "unused" }

/-- C3 amended: absence of the `_csrf` field makes `login()` return
`False` (no exception) with no credential POST issued; absence of the
`?ticket=` marker in the POST response body likewise makes `login()`
return `False`, after exactly the sign-in GET and the credential POST. -/
theorem authenticate_hard_failures (w : World) (s : GarminState)
    (r r2 : Response) (c : String) :
    (s.session_data = none → w.ssoSigninGet = .response r →
      raise_for_status r.status_code = false → r.text.csrf = none →
      (login w s).2.2 = .ok false ∧ (login w s).2.1 = [Step.getSsoSignin])
    ∧ (s.session_data = none → w.ssoSigninGet = .response r →
      raise_for_status r.status_code = false → r.text.csrf = some c →
      w.ssoSigninPost = .response r2 →
      raise_for_status r2.status_code = false → r2.text.ticket = none →
      (login w s).2.2 = .ok false
      ∧ (login w s).2.1
        = [Step.getSsoSignin, Step.postSsoSignin s.username s.password c]) := by
  constructor
  · intro hsd hw hst hcsrf
    simp [login, hsd, authenticate, hw, ApiClient.get, hst, hcsrf]
  · intro hsd hw hst hcsrf hpost hst2 hticket
    simp [login, hsd, authenticate, hw, hpost, ApiClient.get, ApiClient.post,
      hst, hst2, hcsrf, hticket]

/-- Witness for C3 amended: both hard-failure shapes at concrete
inputs. -/
theorem authenticate_hard_failures_witness :
    ((login w3 s3).2.2 = .ok false ∧ (login w3 s3).2.1 = [Step.getSsoSignin])
    ∧ ((login w3t s3).2.2 = .ok false
      ∧ (login w3t s3).2.1
        = [Step.getSsoSignin,
           Step.postSsoSignin "user@example.com" "hunter2" "csrf-token-1"]) := by
  constructor
  · exact (authenticate_hard_failures w3 s3 signinPageNoCsrf signinPageNoCsrf "c").1
      rfl rfl rfl rfl
  · exact (authenticate_hard_failures w3t s3 signinPageWithCsrf postPageNoTicket
      "csrf-token-1").2 rfl rfl rfl rfl rfl rfl rfl

/-- Credential-POST response carrying a service ticket and an SSO
cookie. -/
def signinPostWithTicket : Response :=
  { status_code := 200
    text := { embeddedJson := fun _ => none, csrf := none, ticket := some "ST-0123456789" }
    url := "https://sso.garmin.com/sso/signin"
    set_cookies := [("CASTGC", "tgt-9")] }

/-- Modern-root response for the ticket exchange, carrying both embedded
JSON blobs and a session cookie. -/
def modernRootPage : Response :=
  { status_code := 200
    text :=
      { embeddedJson := fun k =>
          if k = "VIEWER_USERPREFERENCES" then
            some [("displayName", "alice"), ("measurementSystem", "metric")]
          else if k = "VIEWER_SOCIAL_PROFILE" then
            some [("fullName", "Alice Example")]
          else none
        csrf := none
        ticket := none }
    url := "https://connect.garmin.com/modern/"
    set_cookies := [("SESSIONID", "sid-9")] }

/-- World for a fully successful credential authentication. -/
def w6 : World :=
  { ssoLoginResume := .networkError "unused"
    ssoSigninGet := .response
      { status_code := 200
        text := { embeddedJson := fun _ => none, csrf := some "csrf-66", ticket := none }
        url := "https://sso.garmin.com/sso/signin"
        set_cookies := [("GARMIN-SSO", "1")] }
    ssoSigninPost := .response signinPostWithTicket
    modernTicketGet := .response modernRootPage }

/-- Counterexample for C6: after a successful full authentication the
persisted record holds exactly three fields — the display name and the
two cookie snapshots — and no field carries the unit system, although
the client scraped it (`metric`) into its own state. -/
theorem session_record_three_fields :
    (authenticate w6 s3).2.2 = .ok true
    ∧ (authenticate w6 s3).1.unit_system = some "metric"
    ∧ (authenticate w6 s3).1.session_data
      = some [("display_name", SessionValue.str "alice"),
              ("session_cookies", SessionValue.cookies
                [("GARMIN-SSO", "1"), ("CASTGC", "tgt-9"), ("SESSIONID", "sid-9")]),
              ("login_cookies", SessionValue.cookies
                [("GARMIN-SSO", "1"), ("CASTGC", "tgt-9"), ("SESSIONID", "sid-9")])] := by
  refine ⟨?_, ?_, ?_⟩ <;> rfl

/-- C6 amended: after every successful full authentication the persisted
record holds exactly three fields — the display name, the
application-host cookie snapshot and the SSO-host cookie snapshot, the
latter two snapshotting the one shared cookie jar — and each field is
recovered exactly by the dict lookups the resume path performs. -/
theorem authenticate_session_record (w : World) (s : GarminState)
    (r r2 r3 : Response) (c t dn ms fn : String) (up sp : JsonObj)
    (hget : w.ssoSigninGet = .response r)
    (hst : raise_for_status r.status_code = false)
    (hcsrf : r.text.csrf = some c)
    (hpost : w.ssoSigninPost = .response r2)
    (hst2 : raise_for_status r2.status_code = false)
    (hticket : r2.text.ticket = some t)
    (hmod : w.modernTicketGet = .response r3)
    (hst3 : raise_for_status r3.status_code = false)
    (hup : r3.text.embeddedJson "VIEWER_USERPREFERENCES" = some up)
    (hdn : dictGet "displayName" up = some dn)
    (hms : dictGet "measurementSystem" up = some ms)
    (hsp : r3.text.embeddedJson "VIEWER_SOCIAL_PROFILE" = some sp)
    (hfn : dictGet "fullName" sp = some fn) :
    (authenticate w s).2.2 = .ok true
    ∧ (authenticate w s).1.session_data
      = some [("display_name", SessionValue.str dn),
              ("session_cookies", SessionValue.cookies (authenticate w s).1.jar),
              ("login_cookies", SessionValue.cookies (authenticate w s).1.jar)]
    ∧ dictGet "display_name" ((authenticate w s).1.session_data.getD [])
        = some (SessionValue.str dn)
    ∧ dictGet "session_cookies" ((authenticate w s).1.session_data.getD [])
        = some (SessionValue.cookies (authenticate w s).1.jar)
    ∧ dictGet "login_cookies" ((authenticate w s).1.session_data.getD [])
        = some (SessionValue.cookies (authenticate w s).1.jar) := by
  simp [authenticate, hget, hpost, hmod, ApiClient.get, ApiClient.post,
    hst, hst2, hst3, hcsrf, hticket, hup, hdn, hms, hsp, hfn, dictGet]

/-- Witness for C6 amended: the concrete successful authentication. -/
theorem authenticate_session_record_witness :
    (authenticate w6 s3).2.2 = .ok true
    ∧ (authenticate w6 s3).1.session_data
      = some [("display_name", SessionValue.str "alice"),
              ("session_cookies", SessionValue.cookies (authenticate w6 s3).1.jar),
              ("login_cookies", SessionValue.cookies (authenticate w6 s3).1.jar)]
    ∧ dictGet "display_name" ((authenticate w6 s3).1.session_data.getD [])
        = some (SessionValue.str "alice")
    ∧ dictGet "session_cookies" ((authenticate w6 s3).1.session_data.getD [])
        = some (SessionValue.cookies (authenticate w6 s3).1.jar)
    ∧ dictGet "login_cookies" ((authenticate w6 s3).1.session_data.getD [])
        = some (SessionValue.cookies (authenticate w6 s3).1.jar) := by
  exact authenticate_session_record w6 s3 _ signinPostWithTicket modernRootPage
    "csrf-66" "ST-0123456789" "alice" "metric" "Alice Example"
    [("displayName", "alice"), ("measurementSystem", "metric")]
    [("fullName", "Alice Example")]
    rfl rfl rfl rfl rfl rfl rfl rfl (by decide) (by decide) (by decide)
    (by decide) (by decide)

end GarminVerify
